import Mathlib

/-!
Shallow embedding of the messaging-sdk-example AI bot backend.

The definitions below translate the backend source files
(src/backend/src/eventIndexer.ts, sessionKey.ts, messageSender.ts,
index.ts, messagingClient.ts, config.ts) into Lean.  External I/O
(RPC queries, the seal credential issuer, the LLM oracle, transaction
submission) is passed in as explicit environment arguments of type
Except Err, mirroring the promise-rejection behaviour of each call
site; JavaScript truthiness of string-valued fields is modelled
explicitly.
-/

namespace MessagingBot

/-- Error value carried by a rejected promise or a thrown Error. -/
structure Err where
  message : String
deriving DecidableEq, Repr

/-- Truthiness of a JavaScript string that may be undefined or null:
undefined, null and the empty string are falsy, every other string truthy. -/
def jsStringTruthy : Option String → Bool
  | none => false
  | some s => !(s == "")

/-- Model of the JavaScript string endsWith used by the event-type check
(equivalent to Lean String.endsWith, stated over the character list so
that it evaluates in the kernel). -/
def jsEndsWith (s post : String) : Bool := post.data.isSuffixOf s.data

/-- Configuration constant SESSION_KEY_TTL_MINUTES from config.ts. -/
def SESSION_KEY_TTL_MINUTES : Nat := 30

/-- Configuration constant PACKAGE_ID from config.ts. -/
def PACKAGE_ID : String := "0x984960ebddd75c15c6d38355ac462621db0ffc7d6647214c802cd3b685e1af3d"

/-- A Sui event as consumed by the indexer: the event type string, the
parsedJson fields channel_id, sender, message_index, key_version, and the
optional timestampMs (a missing timestamp is read as 0 via
BigInt(event.timestampMs || 0x27 0 0x27) in the source; we keep it as Option Nat). -/
structure SuiEvent where
  type : String
  channel_id : String
  sender : String
  timestampMs : Option Nat
  message_index : Nat
  key_version : Nat
deriving DecidableEq, Repr

/-- IndexedMessage from eventIndexer.ts: the decrypted message record the
indexer hands to the poll loop. -/
structure IndexedMessage where
  channelId : String
  sender : String
  text : String
  timestamp : Nat
  messageIndex : Nat
  keyVersion : Nat
deriving DecidableEq, Repr

/-- A message object returned by messagingClient.getLatestMessages; its text
field may be null or absent, hence Option String. -/
structure SdkMessage where
  text : Option String
deriving DecidableEq, Repr

/-- Response shape of messagingClient.getLatestMessages. -/
structure LatestMessagesResponse where
  messages : List SdkMessage
deriving DecidableEq, Repr

/-- Modelled from the spec: the seal-library SessionKey (an external
collaborator; only its interface is in this repository).  A credential is
scoped to an address and package with a ttl in minutes; it is valid iff
now < issuedAt + ttl (spec section 3, Credential). -/
structure SessionKey where
  address : String
  packageId : String
  ttlMin : Nat
  createdAt : Nat
deriving DecidableEq, Repr

/-- Expiry instant of a session key in milliseconds. -/
def SessionKey.expiryMs (sk : SessionKey) : Nat :=
  sk.createdAt + sk.ttlMin * 60000

/-- Modelled from the spec: SessionKey.isExpired of the seal library; a
credential is valid iff now < issuedAt + ttl, so it is expired iff
issuedAt + ttl <= now. -/
def SessionKey.isExpired (sk : SessionKey) (now : Nat) : Bool :=
  decide (sk.expiryMs ≤ now)

/-- The messaging client of messagingClient.ts: createMessagingClient wires
the given session key into a fresh SuiStackMessagingClient, so for the
claims it is the session key it carries. -/
structure SuiStackMessagingClient where
  sessionKey : SessionKey
deriving DecidableEq, Repr

/-- createMessagingClient from messagingClient.ts. -/
def createMessagingClient (sessionKey : SessionKey) : SuiStackMessagingClient :=
  { sessionKey := sessionKey }

/-- Module-level mutable cache of sessionKey.ts (cachedSessionKey and
sessionKeyExpiry). -/
structure SessionKeyCache where
  cachedSessionKey : Option SessionKey
  sessionKeyExpiry : Option Nat
deriving DecidableEq, Repr

/-- createBotSessionKey from sessionKey.ts: issuance of a fresh credential
scoped to the bot address, PACKAGE_ID and SESSION_KEY_TTL_MINUTES.  The
challenge-signing round trip with the external issuer is modelled as
succeeding; a failure there throws and aborts the cycle, which none of the
verified claims depends on. -/
def createBotSessionKey (now : Nat) (address : String) : SessionKey :=
  { address := address
    packageId := PACKAGE_ID
    ttlMin := SESSION_KEY_TTL_MINUTES
    createdAt := now }

/-- Creation path of getOrCreateSessionKey: issue a new key and cache it
with expiry now + (SESSION_KEY_TTL_MINUTES - 1) minutes (renew one minute
before the actual TTL elapses). -/
def createAndCacheSessionKey (now : Nat) (address : String) :
    SessionKey × SessionKeyCache :=
  (createBotSessionKey now address,
    { cachedSessionKey := some (createBotSessionKey now address)
      sessionKeyExpiry := some (now + (SESSION_KEY_TTL_MINUTES - 1) * 60 * 1000) })

/-- getOrCreateSessionKey from sessionKey.ts: return the cached key if the
cache holds one, the stored expiry is truthy, now is before it and the key
itself is not expired; otherwise fall through to the creation path. -/
def getOrCreateSessionKey (now : Nat) (address : String) (cache : SessionKeyCache) :
    SessionKey × SessionKeyCache :=
  match cache.cachedSessionKey, cache.sessionKeyExpiry with
  | some sk, some expiry =>
      if expiry ≠ 0 ∧ now < expiry ∧ ¬ sk.isExpired now then (sk, cache)
      else createAndCacheSessionKey now address
  | _, _ => createAndCacheSessionKey now address

/-- State of the MessageIndexer class of eventIndexer.ts. -/
structure IndexerState where
  messagingClient : SuiStackMessagingClient
  botAddress : String
  botMemberChannels : List String
  startTimestamp : Nat
deriving DecidableEq, Repr

/-- updateMessagingClient of MessageIndexer (eventIndexer.ts). -/
def IndexerState.updateMessagingClient (st : IndexerState)
    (messagingClient : SuiStackMessagingClient) : IndexerState :=
  { st with messagingClient := messagingClient }

/-- State of the MessageSender class of messageSender.ts. -/
structure MessageSenderState where
  messagingClient : SuiStackMessagingClient
  botAddress : String
deriving DecidableEq, Repr

/-- updateMessagingClient of MessageSender (messageSender.ts). -/
def MessageSenderState.updateMessagingClient (st : MessageSenderState)
    (messagingClient : SuiStackMessagingClient) : MessageSenderState :=
  { st with messagingClient := messagingClient }

/-- decryptMessage of eventIndexer.ts: call getLatestMessages for the channel
at the message cursor; on a thrown error return null; otherwise return the
first message text if the response is nonempty and the text is truthy
(response.messages.length > 0 && response.messages[0].text), else null. -/
def decryptMessage
    (getLatestMessages : String → Nat → Except Err LatestMessagesResponse)
    (channelId : String) (messageCursor : Nat) : Option String :=
  match getLatestMessages channelId messageCursor with
  | .error _ => none
  | .ok response =>
      match response.messages with
      | [] => none
      | m :: _ => if jsStringTruthy m.text then m.text else none

/-- filterAndDecryptMessages of eventIndexer.ts: iterate the events in order,
skip any that is not a MessageAddedEvent, whose channel is not in
botMemberChannels, whose sender is the bot itself, or whose timestamp is
before startTimestamp; decrypt the rest and keep those that decrypt to a
non-null text.  The decrypt argument stands for this.decryptMessage, which
never throws (it catches internally and returns null). -/
def filterAndDecryptMessages (st : IndexerState)
    (decrypt : String → Nat → Option String) :
    List SuiEvent → List IndexedMessage
  | [] => []
  | event :: rest =>
      if !(jsEndsWith event.type "MessageAddedEvent") then
        filterAndDecryptMessages st decrypt rest
      else if !(st.botMemberChannels.contains event.channel_id) then
        filterAndDecryptMessages st decrypt rest
      else if event.sender == st.botAddress then
        filterAndDecryptMessages st decrypt rest
      else if (event.timestampMs.getD 0) < st.startTimestamp then
        filterAndDecryptMessages st decrypt rest
      else
        match decrypt event.channel_id event.message_index with
        | some decryptedText =>
            { channelId := event.channel_id
              sender := event.sender
              text := decryptedText
              timestamp := event.timestampMs.getD 0
              messageIndex := event.message_index
              keyVersion := event.key_version } :: filterAndDecryptMessages st decrypt rest
        | none => filterAndDecryptMessages st decrypt rest

/-- Per-event view of filterAndDecryptMessages: the message an event
contributes, if any. -/
def eventToMessage (st : IndexerState) (decrypt : String → Nat → Option String)
    (event : SuiEvent) : Option IndexedMessage :=
  if !(jsEndsWith event.type "MessageAddedEvent") then none
  else if !(st.botMemberChannels.contains event.channel_id) then none
  else if event.sender == st.botAddress then none
  else if (event.timestampMs.getD 0) < st.startTimestamp then none
  else
    match decrypt event.channel_id event.message_index with
    | some decryptedText =>
        some { channelId := event.channel_id
               sender := event.sender
               text := decryptedText
               timestamp := event.timestampMs.getD 0
               messageIndex := event.message_index
               keyVersion := event.key_version }
    | none => none

/-- A MemberCap object page entry as returned by getOwnedObjects: whether its
content dataType is moveObject, and its channel_id field (absent or empty is
falsy). -/
structure MemberCap where
  isMoveObject : Bool
  channel_id : Option String
deriving DecidableEq, Repr

/-- Channel extraction loop of updateBotMemberChannels: keep the channel_id of
every moveObject cap whose channel_id is truthy.  The source stores them in a
Set, which only collapses duplicates; membership is unchanged by using a
list. -/
def extractMemberChannels : List MemberCap → List String
  | [] => []
  | cap :: rest =>
      if cap.isMoveObject && jsStringTruthy cap.channel_id then
        cap.channel_id.getD "" :: extractMemberChannels rest
      else extractMemberChannels rest

/-- updateBotMemberChannels of eventIndexer.ts.  The enumeration argument is
the whole paginated getOwnedObjects loop: an error on any page throws before
botMemberChannels.clear() is reached, so the previous set is untouched; the
surrounding catch block only logs the error and returns normally, hence the
error branch yields .ok with the state unchanged, never .error. -/
def updateBotMemberChannels (st : IndexerState)
    (enumeration : Except Err (List MemberCap)) : Except Err IndexerState :=
  match enumeration with
  | .error _ => .ok st
  | .ok allMemberCaps =>
      .ok { st with botMemberChannels := extractMemberChannels allMemberCaps }

/-- Cursor type of eventIndexer.ts: EventId or null/undefined. -/
abbrev EventId := String

/-- SuiEventsCursor of eventIndexer.ts. -/
abbrev SuiEventsCursor := Option EventId

/-- Result shape of client.queryEvents as consumed by getMessagesSince. -/
structure QueryEventsResult where
  data : List SuiEvent
  nextCursor : Option EventId
deriving DecidableEq, Repr

/-- Return value of getMessagesSince together with the updated indexer state
(the membership refresh mutates this.botMemberChannels before the query). -/
structure MessagesSinceResult where
  indexer : IndexerState
  messages : List IndexedMessage
  nextCursor : SuiEventsCursor
deriving DecidableEq, Repr

/-- getMessagesSince of eventIndexer.ts: refresh membership, query the events
since the cursor, filter and decrypt them, and return nextCursor || cursor;
on a thrown error (the query rejecting) return an empty list and the input
cursor unchanged. -/
def getMessagesSince (st : IndexerState)
    (enumeration : Except Err (List MemberCap))
    (queryEvents : Except Err QueryEventsResult)
    (getLatestMessages : String → Nat → Except Err LatestMessagesResponse)
    (cursor : SuiEventsCursor) : MessagesSinceResult :=
  match updateBotMemberChannels st enumeration with
  | .error _ => { indexer := st, messages := [], nextCursor := cursor }
  | .ok st1 =>
      match queryEvents with
      | .error _ => { indexer := st1, messages := [], nextCursor := cursor }
      | .ok res =>
          { indexer := st1
            messages := filterAndDecryptMessages st1 (decryptMessage getLatestMessages) res.data
            nextCursor :=
              match res.nextCursor with
              | some c => some c
              | none => cursor }

/-- Membership record returned by getChannelMemberships (messageSender.ts). -/
structure Membership where
  channel_id : String
  member_cap_id : Option String
deriving DecidableEq, Repr

/-- Response shape of getChannelMemberships. -/
structure ChannelMembershipsResponse where
  memberships : List Membership
deriving DecidableEq, Repr

/-- getMemberCapForChannel of messageSender.ts: find the membership for the
channel and return its member_cap_id || null; any thrown error is caught and
null returned. -/
def getMemberCapForChannel
    (getChannelMemberships : Except Err ChannelMembershipsResponse)
    (channelId : String) : Option String :=
  match getChannelMemberships with
  | .error _ => none
  | .ok resp =>
      match resp.memberships.find? (fun m => m.channel_id == channelId) with
      | none => none
      | some membership =>
          if jsStringTruthy membership.member_cap_id then membership.member_cap_id
          else none

/-- Encryption key history of a channel object (latest bytes and version). -/
structure EncryptionKeyHistory where
  latest : List Nat
  latest_version : Nat
deriving DecidableEq, Repr

/-- Channel object as returned by getChannelObjectsByChannelIds. -/
structure ChannelObject where
  encryption_key_history : EncryptionKeyHistory
deriving DecidableEq, Repr

/-- The encrypted symmetric key value built by getEncryptedKeyForChannel (the
byte-buffer copy and bigint-to-number conversion are value-preserving). -/
structure EncryptedKey where
  encryptedBytes : List Nat
  version : Nat
deriving DecidableEq, Repr

/-- getEncryptedKeyForChannel of messageSender.ts: read the first channel
object and package its latest encryption key; null when the read throws or
returns no channel. -/
def getEncryptedKeyForChannel
    (getChannelObjects : Except Err (List ChannelObject)) : Option EncryptedKey :=
  match getChannelObjects with
  | .error _ => none
  | .ok channels =>
      match channels with
      | [] => none
      | channel :: _ =>
          some { encryptedBytes := channel.encryption_key_history.latest
                 version := channel.encryption_key_history.latest_version }

/-- Environment of one sendMessage attempt: the outcomes the external calls
would produce if reached.  buildTransaction merges the
messagingClient.sendMessage builder creation and its application to the
transaction. -/
structure SendEnv where
  getChannelMemberships : Except Err ChannelMembershipsResponse
  getChannelObjects : Except Err (List ChannelObject)
  buildTransaction : Except Err Unit
  signAndExecuteTransaction : Except Err String
  waitForTransaction : String → Except Err Unit

/-- Outcome of sendMessage: the propagated result, and whether
signAndExecuteTransaction was ever invoked (hence whether anything could
have been signed or submitted). -/
structure SendOutcome where
  result : Except Err Unit
  signAndExecuteCalled : Bool
deriving Repr

/-- sendMessage of messageSender.ts: resolve the member cap (throw if null),
resolve the encrypted key (throw if null), build the transaction, sign and
execute it, wait for confirmation; the catch block rethrows, so every step
failure propagates to the caller and there is no internal retry. -/
def sendMessage (env : SendEnv) (channelId : String) : SendOutcome :=
  match getMemberCapForChannel env.getChannelMemberships channelId with
  | none =>
      { result := .error { message := "No member cap found for channel " ++ channelId }
        signAndExecuteCalled := false }
  | some _ =>
      match getEncryptedKeyForChannel env.getChannelObjects with
      | none =>
          { result := .error { message := "No encrypted key found for channel " ++ channelId }
            signAndExecuteCalled := false }
      | some _ =>
          match env.buildTransaction with
          | .error e => { result := .error e, signAndExecuteCalled := false }
          | .ok _ =>
              match env.signAndExecuteTransaction with
              | .error e => { result := .error e, signAndExecuteCalled := true }
              | .ok digest =>
                  match env.waitForTransaction digest with
                  | .error e => { result := .error e, signAndExecuteCalled := true }
                  | .ok _ => { result := .ok (), signAndExecuteCalled := true }

/-- Conversation turn passed to the LLM oracle (llmService.ts). -/
structure ConversationMessage where
  role : String
  content : String
deriving DecidableEq, Repr

/-- Observable actions of one poll cycle: an oracle invocation with the
history it was given, and a successfully dispatched reply. -/
inductive CycleEvent where
  | oracleCall (text : String) (history : List ConversationMessage)
  | dispatch (channelId : String) (reply : String)
deriving DecidableEq, Repr

/-- Environment of the per-message processing in pollLoop: the oracle
(aiService.generateResponse) and the dispatcher (messageSender.sendMessage),
each of which may throw. -/
structure BotEnv where
  generateResponse : String → List ConversationMessage → Except Err String
  sendReply : String → String → Except Err Unit

/-- Outcome of processing one batch: the trace of observable actions and the
overall result (the first thrown error, if any, aborts the loop). -/
structure ProcessOutcome where
  trace : List CycleEvent
  result : Except Err Unit
deriving Repr

/-- The for-loop body of pollLoop (index.ts lines 170-182): for each message
in order, call the oracle with the message text and an empty history literal
(aiService.generateResponse(msg.text, [])), then dispatch the reply to the
channel; a thrown error stops the batch there. -/
def processMessages (env : BotEnv) : List IndexedMessage → ProcessOutcome
  | [] => { trace := [], result := .ok () }
  | msg :: rest =>
      match env.generateResponse msg.text [] with
      | .error e => { trace := [.oracleCall msg.text []], result := .error e }
      | .ok reply =>
          match env.sendReply msg.channelId reply with
          | .error e => { trace := [.oracleCall msg.text []], result := .error e }
          | .ok _ =>
              let rest1 := processMessages env rest
              { trace := .oracleCall msg.text [] :: .dispatch msg.channelId reply :: rest1.trace
                result := rest1.result }

/-- Result record of checkAndRenewSessionKey (index.ts). -/
structure RenewalResult where
  sessionKey : SessionKey
  messagingClient : SuiStackMessagingClient
  renewed : Bool
deriving DecidableEq, Repr

/-- Full outcome of checkAndRenewSessionKey: its return value plus the
updated module cache, indexer and sender (the two updateMessagingClient
calls). -/
structure RenewalOutcome where
  renewalResult : RenewalResult
  cache : SessionKeyCache
  indexer : IndexerState
  sender : MessageSenderState
deriving DecidableEq, Repr

/-- checkAndRenewSessionKey of index.ts: if the current session key is
expired, obtain a new one, build a new messaging client from it, push it to
the indexer and the sender, and report renewed; otherwise return the current
key with a fresh client wrapper and leave the components untouched. -/
def checkAndRenewSessionKey (now : Nat) (currentSessionKey : SessionKey)
    (botAddress : String) (cache : SessionKeyCache)
    (messageIndexer : IndexerState) (messageSender : MessageSenderState) :
    RenewalOutcome :=
  if currentSessionKey.isExpired now then
    let created := getOrCreateSessionKey now botAddress cache
    let newMessagingClient := createMessagingClient created.1
    { renewalResult :=
        { sessionKey := created.1, messagingClient := newMessagingClient, renewed := true }
      cache := created.2
      indexer := messageIndexer.updateMessagingClient newMessagingClient
      sender := messageSender.updateMessagingClient newMessagingClient }
  else
    { renewalResult :=
        { sessionKey := currentSessionKey
          messagingClient := createMessagingClient currentSessionKey
          renewed := false }
      cache := cache
      indexer := messageIndexer
      sender := messageSender }

/-- Mutable state of the poll loop across cycles. -/
structure BotState where
  lastCursor : SuiEventsCursor
  currentSessionKey : SessionKey
  cache : SessionKeyCache
  indexer : IndexerState
  sender : MessageSenderState
deriving Repr

/-- External world of one poll cycle. -/
structure CycleEnv where
  enumeration : Except Err (List MemberCap)
  queryEvents : Except Err QueryEventsResult
  getLatestMessages : String → Nat → Except Err LatestMessagesResponse
  bot : BotEnv

/-- One iteration of the while loop of pollLoop (index.ts lines 148-192):
renew the session key if needed (updating currentSessionKey even if the rest
of the cycle fails), fetch and filter new messages, process them in order,
and only if the whole batch succeeded set lastCursor to nextCursor else keep
it; the catch block keeps the cursor at its pre-batch value. -/
def pollCycle (now : Nat) (env : CycleEnv) (st : BotState) :
    BotState × List CycleEvent :=
  let renew := checkAndRenewSessionKey now st.currentSessionKey st.sender.botAddress
    st.cache st.indexer st.sender
  let sessionKey1 :=
    if renew.renewalResult.renewed then renew.renewalResult.sessionKey
    else st.currentSessionKey
  let fetched := getMessagesSince renew.indexer env.enumeration env.queryEvents
    env.getLatestMessages st.lastCursor
  let processed := processMessages env.bot fetched.messages
  match processed.result with
  | .ok _ =>
      ({ lastCursor :=
           match fetched.nextCursor with
           | some c => some c
           | none => st.lastCursor
         currentSessionKey := sessionKey1
         cache := renew.cache
         indexer := fetched.indexer
         sender := renew.sender }, processed.trace)
  | .error _ =>
      ({ lastCursor := st.lastCursor
         currentSessionKey := sessionKey1
         cache := renew.cache
         indexer := fetched.indexer
         sender := renew.sender }, processed.trace)

/-- Fetch step of a cycle, exactly as pollCycle computes it: getMessagesSince
on the post-renewal indexer at the pre-batch cursor. -/
def fetchedResult (now : Nat) (env : CycleEnv) (st : BotState) : MessagesSinceResult :=
  getMessagesSince
    (checkAndRenewSessionKey now st.currentSessionKey st.sender.botAddress
      st.cache st.indexer st.sender).indexer
    env.enumeration env.queryEvents env.getLatestMessages st.lastCursor

/-- Channels of the successfully dispatched replies of a trace, in order. -/
def dispatchedChannels : List CycleEvent → List String
  | [] => []
  | .dispatch c _ :: rest => c :: dispatchedChannels rest
  | .oracleCall _ _ :: rest => dispatchedChannels rest

/-- Channel-and-reply pairs of the successfully dispatched replies of a
trace, in order. -/
def dispatches : List CycleEvent → List (String × String)
  | [] => []
  | .dispatch c r :: rest => (c, r) :: dispatches rest
  | .oracleCall _ _ :: rest => dispatches rest

/-- Reply text the oracle produces for a message when its invocation
succeeds (placeholder when it throws; processing aborts in that case, so
the value is never dispatched). -/
def replyOf (env : BotEnv) (m : IndexedMessage) : String :=
  match env.generateResponse m.text [] with
  | .ok reply => reply
  | .error _ => ""

/-- Histories handed to the oracle across a trace, in order. -/
def oracleHistories : List CycleEvent → List (List ConversationMessage)
  | [] => []
  | .oracleCall _ h :: rest => h :: oracleHistories rest
  | .dispatch _ _ :: rest => oracleHistories rest

/-! Concrete sample data, used to instantiate the theorems below. -/

/-- Sample session key issued at time 0 for the bot address. -/
def skW : SessionKey := createBotSessionKey 0 "0xbot"

/-- Sample messaging client wrapping skW. -/
def clientW : SuiStackMessagingClient := createMessagingClient skW

/-- Sample indexer state: bot address 0xbot, member of channel 0xA, started
at time 100. -/
def stW : IndexerState :=
  { messagingClient := clientW
    botAddress := "0xbot"
    botMemberChannels := ["0xA"]
    startTimestamp := 100 }

/-- Sample sender state. -/
def sndW : MessageSenderState := { messagingClient := clientW, botAddress := "0xbot" }

/-- Sample transport error. -/
def errW : Err := { message := "network failure" }

/-- Sample MessageAddedEvent on channel 0xA at time 150, index 0. -/
def eventA0 : SuiEvent :=
  { type := "0xpkg::message::MessageAddedEvent"
    channel_id := "0xA"
    sender := "0xalice"
    timestampMs := some 150
    message_index := 0
    key_version := 1 }

/-- Sample MessageAddedEvent on channel 0xB (the bot is not a member). -/
def eventB1 : SuiEvent :=
  { type := "0xpkg::message::MessageAddedEvent"
    channel_id := "0xB"
    sender := "0xcarol"
    timestampMs := some 160
    message_index := 1
    key_version := 1 }

/-- Sample MessageAddedEvent on channel 0xA at time 170, index 2. -/
def eventA2 : SuiEvent :=
  { type := "0xpkg::message::MessageAddedEvent"
    channel_id := "0xA"
    sender := "0xalice"
    timestampMs := some 170
    message_index := 2
    key_version := 1 }

/-- Sample batch with channels A, B, A (the ordering scenario of the spec). -/
def events3W : List SuiEvent := [eventA0, eventB1, eventA2]

/-- Sample decrypt oracle: message at index i decrypts to "m" ++ i. -/
def decryptW : String → Nat → Option String := fun _ i => some ("m" ++ toString i)

/-- Sample getLatestMessages environment matching decryptW. -/
def getLatestW : String → Nat → Except Err LatestMessagesResponse :=
  fun _ i => .ok { messages := [{ text := some ("m" ++ toString i) }] }

/-- The indexed message that eventA0 produces under stW and decryptW. -/
def mW : IndexedMessage :=
  { channelId := "0xA"
    sender := "0xalice"
    text := "m0"
    timestamp := 150
    messageIndex := 0
    keyVersion := 1 }

/-- Sample bot environment in which the oracle and the dispatcher always
succeed. -/
def envBotW : BotEnv :=
  { generateResponse := fun text _ => .ok ("re:" ++ text)
    sendReply := fun _ _ => .ok () }

/-- Sample bot environment in which dispatching the reply to the message
with text "m2" (the second surviving message of events3W) throws. -/
def envBotFailW : BotEnv :=
  { generateResponse := fun text _ => .ok ("re:" ++ text)
    sendReply := fun _ reply => if reply == "re:m2" then .error errW else .ok () }

/-- Sample batch of eleven messages on one channel. -/
def msgsElevenW : List IndexedMessage :=
  (List.range 11).map fun i =>
    { channelId := "0xA"
      sender := "0xalice"
      text := toString i
      timestamp := 100 + i
      messageIndex := i
      keyVersion := 1 }

/-- Sample member-cap enumeration yielding channel 0xA. -/
def capsW : List MemberCap := [{ isMoveObject := true, channel_id := some "0xA" }]

/-- Sample queryEvents result carrying events3W and next cursor c1. -/
def queryW : QueryEventsResult := { data := events3W, nextCursor := some "c1" }

/-- Sample session-key cache as left by an issuance at time 0 (margin ends
at 29 minutes = 1740000 ms). -/
def cacheW : SessionKeyCache :=
  { cachedSessionKey := some skW, sessionKeyExpiry := some 1740000 }

/-- Sample poll-loop state at cursor c0. -/
def stBotW : BotState :=
  { lastCursor := some "c0"
    currentSessionKey := skW
    cache := cacheW
    indexer := stW
    sender := sndW }

/-- Sample cycle environment whose dispatch fails on the second surviving
message. -/
def envCycleFailW : CycleEnv :=
  { enumeration := .ok capsW
    queryEvents := .ok queryW
    getLatestMessages := getLatestW
    bot := envBotFailW }

/-- Sample send environment in which the bot holds no membership at all. -/
def sendEnvNoCapW : SendEnv :=
  { getChannelMemberships := .ok { memberships := [] }
    getChannelObjects := .ok [{ encryption_key_history := { latest := [1, 2], latest_version := 1 } }]
    buildTransaction := .ok ()
    signAndExecuteTransaction := .ok "digest0"
    waitForTransaction := fun _ => .ok () }

/-- Sample send environment in which the channel object read yields no
channel (no encryption key). -/
def sendEnvNoKeyW : SendEnv :=
  { getChannelMemberships :=
      .ok { memberships := [{ channel_id := "0xA", member_cap_id := some "0xcap" }] }
    getChannelObjects := .ok []
    buildTransaction := .ok ()
    signAndExecuteTransaction := .ok "digest0"
    waitForTransaction := fun _ => .ok () }

/-- Sample getLatestMessages environment that always rejects. -/
def gErrW : String → Nat → Except Err LatestMessagesResponse := fun _ _ => .error errW

/-- Sample getLatestMessages environment whose first message has empty text. -/
def gEmptyTextW : String → Nat → Except Err LatestMessagesResponse :=
  fun _ _ => .ok { messages := [{ text := some "" }] }

/-- Sample decrypt oracle that always returns null. -/
def dNoneW : String → Nat → Option String := fun _ _ => none

/-- Sample cycle environment in which every decryption lookup rejects with a
transport error while the oracle and dispatcher would succeed. -/
def envDecFailW : CycleEnv :=
  { enumeration := .ok capsW
    queryEvents := .ok queryW
    getLatestMessages := gErrW
    bot := envBotW }

/-! Helper lemmas shared by several claims. -/

theorem filterAndDecryptMessages_eq_filterMap (st : IndexerState)
    (decrypt : String → Nat → Option String) (events : List SuiEvent) :
    filterAndDecryptMessages st decrypt events
      = events.filterMap (eventToMessage st decrypt) := by
  induction events with
  | nil => rfl
  | cons e rest ih =>
      rw [List.filterMap_cons]
      simp only [filterAndDecryptMessages, eventToMessage]
      repeat' split
      all_goals simp_all

/-- C2: every message in a batch returned by the event filter satisfies all
three filter conditions: its channel is in the current membership snapshot,
its sender is not the agent's own address, and its timestamp is at or after
the process start time. -/
theorem filtered_batch_invariants (st : IndexerState)
    (decrypt : String → Nat → Option String) (events : List SuiEvent)
    (m : IndexedMessage) (hm : m ∈ filterAndDecryptMessages st decrypt events) :
    m.channelId ∈ st.botMemberChannels ∧ m.sender ≠ st.botAddress ∧
      st.startTimestamp ≤ m.timestamp := by
  rw [filterAndDecryptMessages_eq_filterMap] at hm
  obtain ⟨e, -, he⟩ := List.mem_filterMap.mp hm
  unfold eventToMessage at he
  repeat' split at he
  all_goals try simp_all
  subst he
  simp_all

/-- Witness for filtered_batch_invariants at the concrete batch events3W. -/
theorem filtered_batch_invariants_witness :
    mW.channelId ∈ stW.botMemberChannels ∧ mW.sender ≠ stW.botAddress ∧
      stW.startTimestamp ≤ mW.timestamp :=
  filtered_batch_invariants stW decryptW events3W mW (by decide)

/-- C3: when the event-stream query fails with a transport error,
getMessagesSince returns an empty message sequence together with the
unchanged input cursor, so the cursor never advances on failure. -/
theorem getMessagesSince_transport_error (st : IndexerState)
    (enumeration : Except Err (List MemberCap))
    (getLatestMessages : String → Nat → Except Err LatestMessagesResponse)
    (cursor : SuiEventsCursor) (e : Err) :
    (getMessagesSince st enumeration (.error e) getLatestMessages cursor).messages = []
      ∧ (getMessagesSince st enumeration (.error e) getLatestMessages cursor).nextCursor
          = cursor := by
  cases enumeration <;> simp [getMessagesSince, updateBotMemberChannels]

/-- C5 counterexample: with a failing membership enumeration,
updateBotMemberChannels returns normally (result .ok, so no error reaches
the calling cycle), and the same getMessagesSince call proceeds to return a
nonempty batch and an advanced cursor against the stale set, instead of
aborting the cycle as a transient failure. -/
theorem membership_error_not_surfaced :
    updateBotMemberChannels stW (.error errW) = .ok stW
      ∧ (getMessagesSince stW (.error errW) (.ok queryW) getLatestW (some "c0")).messages ≠ []
      ∧ (getMessagesSince stW (.error errW) (.ok queryW) getLatestW (some "c0")).nextCursor
          = some "c1" := by
  refine ⟨rfl, ?_, rfl⟩
  decide

/-- C5 amended: on enumeration failure the previously tracked channel set is
left unchanged (no partial overwrite), but the error is caught and logged
inside the refresh and not propagated: the caller observes a normal return
and the cycle continues with the stale set. -/
theorem updateBotMemberChannels_error_behaviour (st : IndexerState) (e : Err) :
    updateBotMemberChannels st (.error e) = .ok st := rfl

/-- Helper: an event whose decrypt lookup returns null contributes no
message. -/
theorem eventToMessage_none_of_decrypt_none (st : IndexerState)
    (decrypt : String → Nat → Option String) (ev : SuiEvent)
    (h : decrypt ev.channel_id ev.message_index = none) :
    eventToMessage st decrypt ev = none := by
  unfold eventToMessage
  repeat' split
  all_goals simp_all

/-- C10: decryptMessage returns null whenever retrieval fails, the response
is empty, or the first message has a missing or empty text; and an event
whose decrypt result is null contributes nothing to the batch, so the cycle
neither generates nor dispatches any reply for it. -/
theorem decryptMessage_empty_text_skipped
    (g : String → Nat → Except Err LatestMessagesResponse) (c : String) (i : Nat) :
    (∀ e, g c i = .error e → decryptMessage g c i = none)
    ∧ (∀ r, g c i = .ok r → r.messages = [] → decryptMessage g c i = none)
    ∧ (∀ r m rest, g c i = .ok r → r.messages = m :: rest →
        m.text = none ∨ m.text = some "" → decryptMessage g c i = none)
    ∧ (∀ (st : IndexerState) (d : String → Nat → Option String)
        (pre post : List SuiEvent) (ev : SuiEvent) (env : BotEnv),
        d ev.channel_id ev.message_index = none →
          filterAndDecryptMessages st d (pre ++ ev :: post)
              = filterAndDecryptMessages st d (pre ++ post)
          ∧ processMessages env (filterAndDecryptMessages st d (pre ++ ev :: post))
              = processMessages env (filterAndDecryptMessages st d (pre ++ post))) := by
  refine ⟨?_, ?_, ?_, ?_⟩
  · intro e h
    simp [decryptMessage, h]
  · intro r h hm
    simp [decryptMessage, h, hm]
  · intro r m rest h hm htext
    rcases htext with h1 | h1 <;> simp [decryptMessage, h, hm, h1, jsStringTruthy]
  · intro st d pre post ev env h
    have heq : filterAndDecryptMessages st d (pre ++ ev :: post)
        = filterAndDecryptMessages st d (pre ++ post) := by
      rw [filterAndDecryptMessages_eq_filterMap, filterAndDecryptMessages_eq_filterMap,
        List.filterMap_append, List.filterMap_append, List.filterMap_cons,
        eventToMessage_none_of_decrypt_none st d ev h]
    exact ⟨heq, by rw [heq]⟩

/-- Witness for decryptMessage_empty_text_skipped at concrete environments:
a rejecting lookup, an empty-text message, and a batch from which the
undecryptable event disappears. -/
theorem decryptMessage_empty_text_skipped_witness :
    decryptMessage gErrW "0xA" 0 = none
    ∧ decryptMessage gEmptyTextW "0xA" 0 = none
    ∧ filterAndDecryptMessages stW dNoneW ([] ++ eventA0 :: [eventA2])
        = filterAndDecryptMessages stW dNoneW ([] ++ [eventA2]) :=
  ⟨(decryptMessage_empty_text_skipped gErrW "0xA" 0).1 errW rfl,
   (decryptMessage_empty_text_skipped gEmptyTextW "0xA" 0).2.2.1
     { messages := [{ text := some "" }] } { text := some "" } [] rfl rfl (Or.inr rfl),
   ((decryptMessage_empty_text_skipped gErrW "0xA" 0).2.2.2 stW dNoneW [] [eventA2]
     eventA0 envBotW rfl).1⟩

/-- Helper: when a batch processes to completion, the dispatch trace lists
exactly the channels of the messages, in order. -/
theorem dispatchedChannels_of_ok (env : BotEnv) :
    ∀ msgs : List IndexedMessage, (processMessages env msgs).result = .ok () →
      dispatchedChannels (processMessages env msgs).trace
        = msgs.map fun m => m.channelId := by
  intro msgs
  induction msgs with
  | nil => intro _; rfl
  | cons msg rest ih =>
      intro h
      simp only [processMessages] at h ⊢
      cases hg : env.generateResponse msg.text [] with
      | error e =>
          simp only [hg] at h
          simp at h
      | ok reply =>
          simp only [hg] at h ⊢
          cases hs : env.sendReply msg.channelId reply with
          | error e =>
              simp only [hs] at h
              simp at h
          | ok u =>
              simp only [hs] at h ⊢
              simp only [dispatchedChannels, List.map_cons]
              exact congrArg (List.cons msg.channelId) (ih h)

/-- Helper: when a batch processes to completion, the dispatch trace with
the replies it carries lists, in order, each message's channel paired with
the reply the oracle generated from that very message. -/
theorem dispatches_of_ok (env : BotEnv) :
    ∀ msgs : List IndexedMessage, (processMessages env msgs).result = .ok () →
      dispatches (processMessages env msgs).trace
        = msgs.map fun m => (m.channelId, replyOf env m) := by
  intro msgs
  induction msgs with
  | nil => intro _; rfl
  | cons msg rest ih =>
      intro h
      simp only [processMessages] at h ⊢
      cases hg : env.generateResponse msg.text [] with
      | error e =>
          simp only [hg] at h
          simp at h
      | ok reply =>
          simp only [hg] at h ⊢
          cases hs : env.sendReply msg.channelId reply with
          | error e =>
              simp only [hs] at h
              simp at h
          | ok u =>
              simp only [hs] at h ⊢
              simp only [dispatches, List.map_cons, replyOf, hg]
              exact congrArg (List.cons (msg.channelId, reply)) (ih h)

/-- C9: within a cycle the surviving messages are handled strictly
sequentially; the successful dispatches, together with the reply each one
carries, occur in exactly the order of the triggering messages — the i-th
dispatch targets the i-th message's channel with the reply generated from
that message; and the filter is a per-event filterMap over the incoming
event sequence, so it drops events without reordering the survivors. -/
theorem batch_processing_order (env : BotEnv) (msgs : List IndexedMessage)
    (st : IndexerState) (decrypt : String → Nat → Option String)
    (events : List SuiEvent)
    (h : (processMessages env msgs).result = .ok ()) :
    dispatches (processMessages env msgs).trace
        = msgs.map (fun m => (m.channelId, replyOf env m))
      ∧ dispatchedChannels (processMessages env msgs).trace
          = msgs.map (fun m => m.channelId)
      ∧ filterAndDecryptMessages st decrypt events
          = events.filterMap (eventToMessage st decrypt) :=
  ⟨dispatches_of_ok env msgs h,
   dispatchedChannels_of_ok env msgs h,
   filterAndDecryptMessages_eq_filterMap st decrypt events⟩

/-- Witness for batch_processing_order at the spec scenario: events for
channels A, B, A with membership A only; the two surviving messages decrypt
to m0 and m2, and the dispatch order is their two distinct replies re:m0
then re:m2 — event1-reply before event3-reply. -/
theorem batch_processing_order_witness :
    dispatches
        (processMessages envBotW (filterAndDecryptMessages stW decryptW events3W)).trace
        = (filterAndDecryptMessages stW decryptW events3W).map
            (fun m => (m.channelId, replyOf envBotW m))
      ∧ dispatches
          (processMessages envBotW (filterAndDecryptMessages stW decryptW events3W)).trace
          = [("0xA", "re:m0"), ("0xA", "re:m2")]
      ∧ filterAndDecryptMessages stW decryptW events3W
          = events3W.filterMap (eventToMessage stW decryptW) :=
  ⟨(batch_processing_order envBotW (filterAndDecryptMessages stW decryptW events3W)
      stW decryptW events3W rfl).1,
   by decide,
   (batch_processing_order envBotW (filterAndDecryptMessages stW decryptW events3W)
      stW decryptW events3W rfl).2.2⟩

/-- C1 counterexample: the decryption lookup of every event of the fetched
batch throws a transport error, yet the cycle completes normally with the
cursor advanced from c0 to the tracker-reported c1 and no reply dispatched:
the affected events are dropped and permanently skipped, not refetched from
the pre-batch cursor as the claim requires for decryption failures. -/
theorem pollCycle_decrypt_error_advances :
    (pollCycle 50 envDecFailW stBotW).1.lastCursor = some "c1"
      ∧ (pollCycle 50 envDecFailW stBotW).1.lastCursor ≠ stBotW.lastCursor
      ∧ (pollCycle 50 envDecFailW stBotW).2 = [] := by decide

/-- C1 amended: if processing any message of the fetched batch throws (reply
generation or dispatch), the cycle leaves the cursor at its pre-batch value
so the next cycle refetches from the same starting cursor; only when the
whole batch completes does the cursor advance to the tracker-reported next
cursor (falling back to the old cursor when the tracker reports none). -/
theorem pollCycle_cursor_advance (now : Nat) (env : CycleEnv) (st : BotState) :
    (∀ e, (processMessages env.bot (fetchedResult now env st).messages).result = .error e →
        (pollCycle now env st).1.lastCursor = st.lastCursor)
    ∧ ((processMessages env.bot (fetchedResult now env st).messages).result = .ok () →
        (pollCycle now env st).1.lastCursor
          = match (fetchedResult now env st).nextCursor with
            | some c => some c
            | none => st.lastCursor) := by
  constructor
  · intro e h
    simp only [fetchedResult] at h
    simp only [pollCycle, h]
  · intro h
    simp only [fetchedResult] at h
    simp only [pollCycle, fetchedResult, h]

/-- Witness for pollCycle_cursor_advance: two surviving messages, dispatch
of the second one fails, and the cycle keeps cursor c0 even though the
tracker reported next cursor c1. -/
theorem pollCycle_cursor_advance_witness :
    (processMessages envCycleFailW.bot (fetchedResult 50 envCycleFailW stBotW).messages).result
        = .error errW
      ∧ (pollCycle 50 envCycleFailW stBotW).1.lastCursor = some "c0" :=
  ⟨rfl, (pollCycle_cursor_advance 50 envCycleFailW stBotW).1 errW rfl⟩

/-- C4 counterexample: after processing eleven messages of one channel the
oracle has been invoked eleven times and every single invocation received
the empty history — the context supplied after more than ten turns is not
the ten most recent records but always the empty sequence, because the loop
passes a fresh empty array and stores no turns anywhere. -/
theorem conversation_context_counterexample :
    oracleHistories (processMessages envBotW msgsElevenW).trace
      = List.replicate 11 ([] : List ConversationMessage) := by decide

/-- C4 amended: the poll loop maintains no conversation context store:
processing a batch appends no user or agent turns anywhere, and every
oracle invocation receives the empty history as context. -/
theorem oracle_history_always_empty (env : BotEnv) (msgs : List IndexedMessage)
    (h : List ConversationMessage)
    (hh : h ∈ oracleHistories (processMessages env msgs).trace) : h = [] := by
  revert hh
  induction msgs with
  | nil =>
      intro hh
      simp [processMessages, oracleHistories] at hh
  | cons msg rest ih =>
      intro hh
      simp only [processMessages] at hh
      cases hg : env.generateResponse msg.text [] with
      | error e =>
          simp only [hg] at hh
          simp [oracleHistories] at hh
          exact hh
      | ok reply =>
          simp only [hg] at hh
          cases hs : env.sendReply msg.channelId reply with
          | error e =>
              simp only [hs] at hh
              simp [oracleHistories] at hh
              exact hh
          | ok u =>
              simp only [hs] at hh
              simp only [oracleHistories] at hh
              exact (List.mem_cons.mp hh).elim (fun h1 => h1) (fun h1 => ih h1)

/-- Witness for oracle_history_always_empty at the eleven-message batch. -/
theorem oracle_history_always_empty_witness :
    ([] : List ConversationMessage) ∈
        oracleHistories (processMessages envBotW msgsElevenW).trace
      ∧ ([] : List ConversationMessage) = [] :=
  ⟨by decide, oracle_history_always_empty envBotW msgsElevenW [] (by decide)⟩

/-- C6: getOrCreateSessionKey returns the cached credential unchanged, with
no new issuance, whenever it is called before the cached safety-margin
expiry with a non-expired key; called at or after the margin instant left
by an issuance at time t, it returns a freshly created credential whose
expiry is strictly later than the cached one. -/
theorem getOrCreateSessionKey_freshness :
    (∀ now address sk e cache, cache.cachedSessionKey = some sk →
        cache.sessionKeyExpiry = some e → e ≠ 0 → now < e → ¬ sk.isExpired now →
        getOrCreateSessionKey now address cache = (sk, cache))
    ∧ (∀ now address sk t cache, cache.cachedSessionKey = some sk →
        cache.sessionKeyExpiry = some (t + 29 * 60000) → sk.createdAt = t →
        sk.ttlMin = SESSION_KEY_TTL_MINUTES → t + 29 * 60000 ≤ now →
        (getOrCreateSessionKey now address cache).1 = createBotSessionKey now address
        ∧ sk.expiryMs < (getOrCreateSessionKey now address cache).1.expiryMs) := by
  constructor
  · intro now address sk e cache h1 h2 h3 h4 h5
    simp only [getOrCreateSessionKey, h1, h2]
    rw [if_pos ⟨h3, h4, h5⟩]
  · intro now address sk t cache h1 h2 h3 h4 h5
    have hnot : ¬ now < t + 29 * 60000 := not_lt.mpr h5
    have hcond : ¬ (t + 29 * 60000 ≠ 0 ∧ now < t + 29 * 60000 ∧ ¬ sk.isExpired now) :=
      fun hc => hnot hc.2.1
    simp only [getOrCreateSessionKey, h1, h2]
    rw [if_neg hcond]
    constructor
    · rfl
    · show sk.expiryMs < (createAndCacheSessionKey now address).1.expiryMs
      simp only [createAndCacheSessionKey, createBotSessionKey, SessionKey.expiryMs,
        SESSION_KEY_TTL_MINUTES, h3, h4]
      omega

/-- Witness for getOrCreateSessionKey_freshness: cache left by an issuance
at time 0; a call at 1000 ms returns the cached key and cache unchanged; a
call at the margin instant 1740000 ms returns a fresh key with a strictly
later expiry. -/
theorem getOrCreateSessionKey_freshness_witness :
    getOrCreateSessionKey 1000 "0xbot" cacheW = (skW, cacheW)
      ∧ (getOrCreateSessionKey 1740000 "0xbot" cacheW).1
          = createBotSessionKey 1740000 "0xbot"
      ∧ skW.expiryMs < (getOrCreateSessionKey 1740000 "0xbot" cacheW).1.expiryMs :=
  ⟨getOrCreateSessionKey_freshness.1 1000 "0xbot" skW 1740000 cacheW rfl rfl
      (by decide) (by decide) (by decide),
   (getOrCreateSessionKey_freshness.2 1740000 "0xbot" skW 0 cacheW rfl (by decide) rfl rfl
      (by decide)).1,
   (getOrCreateSessionKey_freshness.2 1740000 "0xbot" skW 0 cacheW rfl (by decide) rfl rfl
      (by decide)).2⟩

/-- C7: whenever the per-cycle check performs a renewal, the outcome has the
new messaging client — wrapping the renewed credential — already installed
in both the message indexer and the message sender when the check returns,
before the cycle performs any further I/O. -/
theorem renewal_propagates_client (now : Nat) (sk : SessionKey) (addr : String)
    (cache : SessionKeyCache) (idx : IndexerState) (sender : MessageSenderState)
    (out : RenewalOutcome)
    (hout : checkAndRenewSessionKey now sk addr cache idx sender = out)
    (hren : out.renewalResult.renewed = true) :
    out.indexer.messagingClient = out.renewalResult.messagingClient
      ∧ out.sender.messagingClient = out.renewalResult.messagingClient
      ∧ out.renewalResult.messagingClient
          = createMessagingClient out.renewalResult.sessionKey := by
  subst hout
  by_cases hexp : sk.isExpired now
  · simp [checkAndRenewSessionKey, hexp, IndexerState.updateMessagingClient,
      MessageSenderState.updateMessagingClient]
  · simp [checkAndRenewSessionKey, hexp] at hren

/-- Witness for renewal_propagates_client: at time 1800000 the key issued at
time 0 is expired, renewal happens, and both components hold the new
client. -/
theorem renewal_propagates_client_witness :
    (checkAndRenewSessionKey 1800000 skW "0xbot" cacheW stW sndW).renewalResult.renewed = true
      ∧ (checkAndRenewSessionKey 1800000 skW "0xbot" cacheW stW sndW).indexer.messagingClient
          = (checkAndRenewSessionKey 1800000 skW "0xbot" cacheW stW
              sndW).renewalResult.messagingClient
      ∧ (checkAndRenewSessionKey 1800000 skW "0xbot" cacheW stW sndW).sender.messagingClient
          = (checkAndRenewSessionKey 1800000 skW "0xbot" cacheW stW
              sndW).renewalResult.messagingClient :=
  ⟨by decide,
   (renewal_propagates_client 1800000 skW "0xbot" cacheW stW sndW _ rfl (by decide)).1,
   (renewal_propagates_client 1800000 skW "0xbot" cacheW stW sndW _ rfl (by decide)).2.1⟩

/-- C8: sendMessage fails the whole attempt whenever any step fails: it
succeeds exactly when the member cap resolves, the encrypted key resolves,
the transaction builds, signing-and-execution succeeds and finality is
reached; and when the membership capability is absent or the channel's
encryption key cannot be read, the send errors with
signAndExecuteTransaction never invoked (nothing signed or submitted). -/
theorem sendMessage_failfast (env : SendEnv) (channelId : String) :
    ((sendMessage env channelId).result = .ok () ↔
      (∃ capId, getMemberCapForChannel env.getChannelMemberships channelId = some capId)
      ∧ (∃ key, getEncryptedKeyForChannel env.getChannelObjects = some key)
      ∧ env.buildTransaction = .ok ()
      ∧ ∃ digest, env.signAndExecuteTransaction = .ok digest
          ∧ env.waitForTransaction digest = .ok ())
    ∧ (getMemberCapForChannel env.getChannelMemberships channelId = none →
        (∃ e, (sendMessage env channelId).result = .error e)
        ∧ (sendMessage env channelId).signAndExecuteCalled = false)
    ∧ (getEncryptedKeyForChannel env.getChannelObjects = none →
        (∃ e, (sendMessage env channelId).result = .error e)
        ∧ (sendMessage env channelId).signAndExecuteCalled = false) := by
  unfold sendMessage
  repeat' split
  all_goals simp_all

/-- Witness for sendMessage_failfast: a send without a member cap and a send
without a readable channel object both error without anything signed or
submitted. -/
theorem sendMessage_failfast_witness :
    ((∃ e, (sendMessage sendEnvNoCapW "0xA").result = .error e)
      ∧ (sendMessage sendEnvNoCapW "0xA").signAndExecuteCalled = false)
    ∧ ((∃ e, (sendMessage sendEnvNoKeyW "0xA").result = .error e)
      ∧ (sendMessage sendEnvNoKeyW "0xA").signAndExecuteCalled = false) :=
  ⟨(sendMessage_failfast sendEnvNoCapW "0xA").2.1 rfl,
   (sendMessage_failfast sendEnvNoKeyW "0xA").2.2 rfl⟩

end MessagingBot
